import Mathlib

/-!
A shallow embedding of the Rule-Engine core (src/core/rule_system.py):
the attribute catalog, the rule tokenizer and recursive-descent parser
producing a condition/operation AST, the decision-tree compiler, and the
rule engine with its mutating operations and candidate evaluation.

Modelling conventions:
* Python runtime values reaching comparisons in this code are booleans,
  ints and strings; they are embedded as `Value`.  Python floats are not
  modelled (no settled claim exercises a float literal or a float
  candidate value).  Python treats `bool` as a subtype of `int`, so
  numeric contexts view booleans as 0/1 (`Value.numView`).
* Python exceptions are embedded as `PyErr` results inside `Except`.
  Message texts mirror the source, minus the quote characters Python
  interpolates around fragments.
* Python dicts (the candidate, the rule map, the catalog) are embedded
  as association lists with insertion order and unique keys; `set`s in
  the source (operation children keyed by object identity, collected
  condition triples) are embedded as lists in first-insertion order,
  fixing Python's arbitrary set iteration order.
* Mutating methods are embedded as functions returning the raised
  exception or the result together with the state of the object at the
  moment the method returns or raises, so that non-atomic mutation
  (modify_rule) is observable.
* Python string primitives (lower-casing, whitespace splitting,
  int(...) literal conversion, lexicographic comparison) are embedded
  as structural recursions over the character list, matching Python on
  the ASCII data this code handles.
-/

namespace RuleSystem

/-- Python str.isspace / str.split whitespace: space, tab, newline,
carriage return, form feed, vertical tab. -/
def pyIsSpace (c : Char) : Bool :=
  c = ' ' ∨ c = '\t' ∨ c = '\n' ∨ c = '\x0d' ∨ c = '\x0c' ∨ c = '\x0b'

/-- Python str.lower on the ASCII characters this code handles. -/
def charLower (c : Char) : Char :=
  if 'A' ≤ c ∧ c ≤ 'Z' then Char.ofNat (c.toNat + 32) else c

/-- Python str.lower (ASCII). -/
def pyLower (s : String) : String := String.mk (s.data.map charLower)

/-- Digit-run accumulator for `pyToInt?`. -/
def digitsToNat : List Char → Nat → Option Nat
  | [], acc => some acc
  | c :: rest, acc =>
    if c.isDigit then digitsToNat rest (acc * 10 + (c.toNat - 48)) else none

/-- Python int(...) applied to a literal token: an optional minus sign
followed by at least one digit.  (Python also tolerates surrounding
whitespace, a plus sign and underscores; literal tokens here never
contain those.) -/
def pyToInt? (s : String) : Option Int :=
  match s.data with
  | [] => none
  | '-' :: rest =>
    match rest with
    | [] => none
    | _ =>
      match digitsToNat rest 0 with
      | some n => some (-(n : Int))
      | none => none
  | l =>
    match digitsToNat l 0 with
    | some n => some (n : Int)
    | none => none

/-- Python `<` on strings: lexicographic by code point, a proper prefix
ordering below its extensions. -/
def charListLt : List Char → List Char → Bool
  | [], [] => false
  | [], _ :: _ => true
  | _ :: _, [] => false
  | a :: as, b :: bs => if a < b then true else if b < a then false else charListLt as bs

/-- Python `str1 < str2`. -/
def pyStrLt (s t : String) : Bool := charListLt s.data t.data

/-- Python truthiness of str.strip(): a string is blank when every
character is whitespace. -/
def pyBlank (s : String) : Bool := s.data.all pyIsSpace

/-- Python str.split() accumulator: builds the current token in
reverse, emitting it at each whitespace run. -/
def splitWsAux : List Char → List Char → List String
  | [], acc => if acc.isEmpty then [] else [String.mk acc.reverse]
  | c :: rest, acc =>
    if pyIsSpace c then
      if acc.isEmpty then splitWsAux rest []
      else String.mk acc.reverse :: splitWsAux rest []
    else splitWsAux rest (c :: acc)

/-- Python str.split() with no argument: split on whitespace runs,
dropping empty pieces. -/
def splitWs (s : String) : List String := splitWsAux s.data []

/-- Embeds the Python runtime values flowing through the rule system:
bool, int and str (floats are not modelled, see the header comment). -/
inductive Value where
  | vBool (b : Bool)
  | vInt (n : Int)
  | vStr (s : String)
deriving DecidableEq

/-- Numeric view of a value: Python treats booleans as the ints 0/1 in
every numeric context; strings have no numeric view. -/
def Value.numView : Value → Option Int
  | .vBool b => some (if b then 1 else 0)
  | .vInt n => some n
  | .vStr _ => none

/-- Embeds the exceptions raised by the source: ParseError (message,
0-based token position, offending token, with token defaulting to the
empty string), ValueError, TypeError and AttributeError. -/
inductive PyErr where
  | parseError (message : String) (position : Nat) (token : String)
  | valueError (message : String)
  | typeError (message : String)
  | attributeError (message : String)
deriving DecidableEq

/-- Python `==` between two of our values: numbers (incl. booleans)
compare numerically, strings compare as strings, a string never equals
a number; no exception is possible. -/
def pyEq (a b : Value) : Bool :=
  match a.numView, b.numView with
  | some x, some y => x == y
  | _, _ =>
    match a, b with
    | .vStr s, .vStr t => s == t
    | _, _ => false

/-- Python `<` between two of our values: strings compare
lexicographically, numbers numerically, and a string/number mix raises
TypeError. -/
def pyLt (a b : Value) : Except PyErr Bool :=
  match a, b with
  | .vStr s, .vStr t => .ok (pyStrLt s t)
  | _, _ =>
    match a.numView, b.numView with
    | some x, some y => .ok (decide (x < y))
    | _, _ => .error (.typeError "comparison not supported between instances of str and int")

/-- Python `<=`, same conventions as `pyLt`. -/
def pyLe (a b : Value) : Except PyErr Bool :=
  match a, b with
  | .vStr s, .vStr t => .ok (pyStrLt s t || s.data == t.data)
  | _, _ =>
    match a.numView, b.numView with
    | some x, some y => .ok (decide (x ≤ y))
    | _, _ => .error (.typeError "comparison not supported between instances of str and int")

/-- The shared `=` comparison of condition.eval (line 102) and
decision.eval (line 149): when the stored literal is a string the code
calls `.lower()` on the candidate value (AttributeError when that value
is not a string) and compares lower-cased strings; otherwise it uses
plain Python `==`. -/
def pyEqOp (cv v : Value) : Except PyErr Bool :=
  match v with
  | .vStr s =>
    match cv with
    | .vStr c => .ok ((pyLower c).data == (pyLower s).data)
    | .vInt _ => .error (.attributeError "int object has no attribute lower")
    | .vBool _ => .error (.attributeError "bool object has no attribute lower")
  | _ => .ok (pyEq cv v)

/-- Dispatch on the five comparison operators shared textually by
condition.eval and decision.eval; `none` for an unrecognized operator
(condition.eval then leaves its result False, decision.eval returns
None).  `cv` is the candidate's value, `v` the condition's literal. -/
def compareKnown (operator : String) (cv v : Value) : Option (Except PyErr Bool) :=
  if operator = "=" then some (pyEqOp cv v)
  else if operator = "<" then some (pyLt cv v)
  else if operator = ">" then some (pyLt v cv)
  else if operator = "<=" then some (pyLe cv v)
  else if operator = ">=" then some (pyLe v cv)
  else none

/-- A candidate record: Python dict from attribute name to value. -/
def Candidate := List (String × Value)

/-- The AST built by the parser: class condition (attribute, operator,
literal value, invertion flag) and class operation (lower-cased "and" /
"or" connective, children added in order, invertion flag). -/
inductive Ast where
  | condition (attr operator : String) (value : Value) (invertion : Bool)
  | operation (operator : String) (children : List Ast) (invertion : Bool)

mutual

/-- condition.eval / operation.eval (lines 96-134): a condition looks up
its attribute (ValueError when missing) and compares; an operation with
no children returns True outright (before any inversion), otherwise it
evaluates every child in order ("and" takes their conjunction, any other
stored connective their disjunction) and applies its inversion flag. -/
def Ast.eval : Ast → Candidate → Except PyErr Bool
  | .condition a o v inv, cand =>
    match cand.lookup a with
    | none => .error (.valueError ("Missing attribute: " ++ a))
    | some cv =>
      match compareKnown o cv v with
      | some r => r.map (fun b => if inv then !b else b)
      | none => .ok (if inv then true else false)
  | .operation o cs inv, cand =>
    if cs.isEmpty then .ok true
    else
      match Ast.evalList cs cand with
      | .error e => .error e
      | .ok results =>
        let r := if o = "and" then results.all id else results.any id
        .ok (if inv then !r else r)

/-- The list comprehension of operation.eval: children evaluated left to
right, the first exception propagating. -/
def Ast.evalList : List Ast → Candidate → Except PyErr (List Bool)
  | [], _ => .ok []
  | c :: cs, cand =>
    match c.eval cand with
    | .error e => .error e
    | .ok b =>
      match Ast.evalList cs cand with
      | .error e => .error e
      | .ok bs => .ok (b :: bs)

end

/-- The compiled decision tree: class decision (attribute, operator,
literal, true/false subtrees) and class result_node (always holding the
boolean an AST evaluation produced). -/
inductive DTree where
  | decision (attr operator : String) (value : Value) (true_tree false_tree : DTree)
  | result_node (value : Bool)
deriving DecidableEq

/-- The evaluation loop of RuleEngine.evaluate (lines 463-466) together
with decision.eval: walk decision nodes, looking up the attribute
(ValueError when missing) and descending into the true or false subtree,
until a result_node is reached.  An operator outside the known five
makes decision.eval return None and the loop then dereferences None
(AttributeError), which is unreachable from the parser. -/
def DTree.run : DTree → Candidate → Except PyErr Bool
  | .result_node b, _ => .ok b
  | .decision a o v tt ft, cand =>
    match cand.lookup a with
    | none => .error (.valueError ("Missing attribute: " ++ a))
    | some cv =>
      match compareKnown o cv v with
      | none => .error (.attributeError "NoneType object has no attribute eval")
      | some r =>
        match r with
        | .error e => .error e
        | .ok b => if b then tt.run cand else ft.run cand

/-- List union keeping first-insertion order; embeds the accumulation of
condition triples into a Python set. -/
def union_triples (l1 l2 : List (String × String × Value)) : List (String × String × Value) :=
  l2.foldl (fun acc t => if t ∈ acc then acc else acc ++ [t]) l1

mutual

/-- find_conditions (lines 347-354): the set of distinct (attribute,
operator, literal) triples in the AST, inversion flags dropped. -/
def find_conditions : Ast → List (String × String × Value)
  | .condition a o v _ => [(a, o, v)]
  | .operation _ cs _ => find_conditions_list cs

/-- Accumulates find_conditions over an operation's children in order. -/
def find_conditions_list : List Ast → List (String × String × Value)
  | [] => []
  | c :: cs => union_triples (find_conditions c) (find_conditions_list cs)

end

/-- The representative used for the false branch (line 368): literal
minus one for numeric literals (Python counts booleans as ints here,
True - 1 = 0), the literal itself otherwise. -/
def false_candidate_value : Value → Value
  | .vInt n => .vInt (n - 1)
  | .vBool b => .vInt ((if b then 1 else 0) - 1)
  | .vStr s => .vStr s

/-- create_decision_tree (lines 356-382).  The node argument is the AST
on the initial call and the boolean produced by the previous level's
evaluation on every recursive call (Python passes both through the same
dynamically-typed parameter).  With no triples left, a boolean becomes a
result_node and an AST is evaluated against the empty candidate.  With a
triple left, the source pops it and calls node.eval: on a boolean that
raises AttributeError (bool has no attribute eval); on an AST it
evaluates the whole AST against the one-attribute representative
candidates and recurses into both branches with the remaining triples. -/
def create_decision_tree : Ast ⊕ Bool → List (String × String × Value) → Except PyErr DTree
  | node, [] =>
    match node with
    | .inr b => .ok (.result_node b)
    | .inl a =>
      match a.eval [] with
      | .error e => .error e
      | .ok b => .ok (.result_node b)
  | node, (a, o, v) :: rest =>
    match node with
    | .inr _ => .error (.attributeError "bool object has no attribute eval")
    | .inl ast =>
      match ast.eval [(a, v)] with
      | .error e => .error e
      | .ok tr =>
        match ast.eval [(a, false_candidate_value v)] with
        | .error e => .error e
        | .ok fr =>
          match create_decision_tree (.inr tr) rest with
          | .error e => .error e
          | .ok tt =>
            match create_decision_tree (.inr fr) rest with
            | .error e => .error e
            | .ok ft => .ok (.decision a o v tt ft)

/-- transform_to_decision_tree (lines 346-385). -/
def transform_to_decision_tree (ast : Ast) : Except PyErr DTree :=
  create_decision_tree (.inl ast) (find_conditions ast)

/-- RuleParser.VALID_OPERATORS. -/
def VALID_OPERATORS : List String := ["=", "<", ">", "<=", ">="]

/-- RuleParser.VALID_LOGICAL_OPERATORS. -/
def VALID_LOGICAL_OPERATORS : List String := ["AND", "OR", "NOT"]

/-- First regex pass of tokenize_rule: a space on both sides of every
parenthesis. -/
def addSpacesAroundParens : List Char → List Char
  | [] => []
  | c :: rest =>
    if c = '(' ∨ c = ')' then ' ' :: c :: ' ' :: addSpacesAroundParens rest
    else c :: addSpacesAroundParens rest

/-- Second regex pass of tokenize_rule: a space on both sides of every
comparison operator, longest alternative first exactly as in the
pattern (<=|>=|=|<|>), scanning left to right. -/
def addSpacesAroundOps : List Char → List Char
  | '<' :: '=' :: rest => ' ' :: '<' :: '=' :: ' ' :: addSpacesAroundOps rest
  | '>' :: '=' :: rest => ' ' :: '>' :: '=' :: ' ' :: addSpacesAroundOps rest
  | '=' :: rest => ' ' :: '=' :: ' ' :: addSpacesAroundOps rest
  | '<' :: rest => ' ' :: '<' :: ' ' :: addSpacesAroundOps rest
  | '>' :: rest => ' ' :: '>' :: ' ' :: addSpacesAroundOps rest
  | c :: rest => c :: addSpacesAroundOps rest
  | [] => []

/-- Python str.split() with no argument: split on whitespace runs,
dropping empty pieces. -/
def pysplit (s : String) : List String := splitWs s

/-- RuleParser.validate_tokens paren scan (lines 185-194): running
balance over the tokens, failing at the first token that closes an
unopened parenthesis, or at the last token's position when the balance
ends positive.  `n` is the total token count. -/
def paren_scan (n : Nat) : List String → Nat → Int → Except PyErr Unit
  | [], _, count =>
    if count > 0 then .error (.parseError "Unmatched opening parenthesis" (n - 1) "")
    else .ok ()
  | t :: rest, pos, count =>
    let count' := if t = "(" then count + 1 else if t = ")" then count - 1 else count
    if count' < 0 then .error (.parseError "Unmatched closing parenthesis" pos t)
    else paren_scan n rest (pos + 1) count'

/-- RuleParser.validate_tokens (lines 178-194). -/
def validate_tokens (tokens : List String) : Except PyErr Unit :=
  if tokens.isEmpty then .error (.parseError "Empty rule string" 0 "")
  else paren_scan tokens.length tokens 0 0

/-- RuleParser.tokenize_rule (lines 196-215): reject blank input, space
out parentheses and comparison operators, split on whitespace, validate
the parenthesis balance. -/
def tokenize_rule (rule : String) : Except PyErr (List String) :=
  if pyBlank rule then .error (.parseError "Empty rule string" 0 "")
  else
    let r1 := String.mk (addSpacesAroundParens rule.data)
    let r2 := String.mk (addSpacesAroundOps r1.data)
    let tokens := pysplit r2
    match validate_tokens tokens with
    | .error e => .error e
    | .ok _ => .ok tokens

/-- Bounds-checked token access; the source always guards indexing with
an explicit position check, so the default is never consulted. -/
def tokenGet (tokens : List String) (pos : Nat) : String := tokens.getD pos ""

/-- The apostrophe character stripped from literal tokens. -/
def quoteChar : Char := '\x27'

/-- Python tokens[pos].strip of the quote character: remove every
leading and trailing apostrophe. -/
def stripQuotes (s : String) : String :=
  String.mk (((s.data.dropWhile (fun c => c = quoteChar)).reverse.dropWhile
      (fun c => c = quoteChar)).reverse)

/-- Literal typing of parse_condition (lines 252-267): case-insensitive
true/false becomes a boolean, else an int when int() succeeds, else the
token stays a string.  (Python would additionally try float(); float
literals are not modelled, see the header comment.) -/
def parseLiteral (raw : String) : Value :=
  if (pyLower raw).data = "true".data then .vBool true
  else if (pyLower raw).data = "false".data then .vBool false
  else
    match pyToInt? raw with
    | some n => .vInt n
    | none => .vStr raw

/-- RuleParser.parse_condition (lines 217-269): optional NOT, an
attribute token that must not be a comparison or logical keyword, a
comparison operator, a literal; each boundary failure is a ParseError
carrying the position reached. -/
def parse_condition (tokens : List String) (pos : Nat) : Except PyErr (Ast × Nat) :=
  if pos ≥ tokens.length then
    .error (.parseError "Unexpected end of rule while parsing condition" pos "")
  else
    let invertion := tokenGet tokens pos = "NOT"
    let pos1 := if invertion then pos + 1 else pos
    if invertion ∧ pos1 ≥ tokens.length then
      .error (.parseError "Unexpected end of rule after NOT operator" pos1 "")
    else if pos1 ≥ tokens.length then
      -- dead guard kept from the source (line 232): unreachable after the checks above
      .error (.parseError "Missing attribute in condition" pos1 "")
    else
      let attr := tokenGet tokens pos1
      if attr ∈ VALID_OPERATORS ∨ attr ∈ VALID_LOGICAL_OPERATORS then
        .error (.parseError "Invalid attribute name" pos1 attr)
      else
        let pos2 := pos1 + 1
        if pos2 ≥ tokens.length then
          .error (.parseError ("Missing operator after attribute " ++ attr) pos2 "")
        else
          let operator := tokenGet tokens pos2
          if operator ∉ VALID_OPERATORS then
            .error (.parseError "Invalid comparison operator" pos2 operator)
          else
            let pos3 := pos2 + 1
            if pos3 ≥ tokens.length then
              .error (.parseError ("Missing value after operator " ++ operator) pos3 "")
            else
              let value := parseLiteral (stripQuotes (tokenGet tokens pos3))
              .ok (.condition attr operator value invertion, pos3 + 1)

/-- operation.add (line 120): append a child (Python adds to a set
keyed by object identity, so structurally equal children built by
separate parses stay distinct; a list is faithful for every input a
settled claim exercises). -/
def operation_add : Ast → Ast → Ast
  | .operation o cs inv, child => .operation o (cs ++ [child]) inv
  | other, _ => other

/-- The connective of the running operation node (always an operation
when consulted by the parser loop). -/
def ast_operator : Ast → String
  | .condition _ o _ _ => o
  | .operation o _ _ => o

/-- The while loop of RuleParser.parse_expression (lines 271-328) with
`cur` the current_operation (None initially).  Faithfully kept quirks:
a first condition or parenthesized group reached with no current
operation is returned immediately; an AND/OR keyword creates the
operation node or wraps the current one when the connective differs;
the NOT branch delegates to parse_condition, so NOT can only prefix a
plain condition.  The fuel argument only bounds the recursion; every
call strictly advances the position, so tokens.length + 1 is always
enough and the out-of-fuel error is unreachable from parse_rule. -/
def parse_expression_loop (tokens : List String) : Nat → Option Ast → Nat → Except PyErr (Ast × Nat)
  | 0, _, _ => .error (.parseError "Unexpected error while parsing rule: recursion limit" 0 "")
  | fuel + 1, cur, pos =>
    if pos ≥ tokens.length then
      match cur with
      | some c => .ok (c, pos)
      | none => .error (.parseError "Unexpected end of rule" pos "")
    else
      let token := tokenGet tokens pos
      if token = "(" then
        match parse_expression_loop tokens fuel none (pos + 1) with
        | .error e => .error e
        | .ok (sub_expr, new_pos) =>
          if new_pos ≥ tokens.length ∨ tokenGet tokens new_pos ≠ ")" then
            .error (.parseError "Missing closing parenthesis" new_pos "")
          else
            match cur with
            | some c => parse_expression_loop tokens fuel (some (operation_add c sub_expr)) (new_pos + 1)
            | none => .ok (sub_expr, new_pos + 1)
      else if token = ")" then
        match cur with
        | none => .error (.parseError "Unexpected closing parenthesis" pos token)
        | some c => .ok (c, pos)
      else if token = "AND" ∨ token = "OR" then
        let kw := pyLower token
        let cur' :=
          match cur with
          | none => Ast.operation kw [] false
          | some c => if ast_operator c ≠ kw then Ast.operation kw [c] false else c
        parse_expression_loop tokens fuel (some cur') (pos + 1)
      else
        -- the token = NOT branch and the plain-condition branch of the
        -- source (lines 309-323) are textually identical
        match parse_condition tokens pos with
        | .error e => .error e
        | .ok (cond, new_pos) =>
          match cur with
          | some c => parse_expression_loop tokens fuel (some (operation_add c cond)) new_pos
          | none => .ok (cond, new_pos)

/-- parse_rule (lines 330-344): tokenize, parse an expression from
position 0, and reject leftover tokens. -/
def parse_rule (rule_str : String) : Except PyErr Ast :=
  match tokenize_rule rule_str with
  | .error e => .error e
  | .ok tokens =>
    match parse_expression_loop tokens (tokens.length + 1) none 0 with
    | .error e => .error e
    | .ok (ast, pos) =>
      if pos < tokens.length then
        .error (.parseError "Unexpected tokens after valid expression" pos (tokenGet tokens pos))
      else .ok ast

/-- AttributeType (lines 6-10). -/
inductive AttributeType where
  | INTEGER
  | FLOAT
  | BOOLEAN
  | STRING
deriving DecidableEq

/-- AttributeDefinition (lines 24-30).  Python allows float bounds;
only integer bounds are modelled (no settled claim uses float bounds).
The allowed-value set is kept as a list. -/
structure AttributeDefinition where
  name : String
  attr_type : AttributeType
  min_value : Option Int := none
  max_value : Option Int := none
  allowed_values : Option (List String) := none
deriving DecidableEq

/-- AttributeCatalog state (lines 32-34). -/
structure AttributeCatalog where
  attributes : List (String × AttributeDefinition)
deriving DecidableEq

/-- The min/max sanity check of add_attribute (lines 42-44): fails only
when both bounds are present and min exceeds max. -/
def bad_min_max (d : AttributeDefinition) : Bool :=
  match d.min_value, d.max_value with
  | some lo, some hi => decide (lo > hi)
  | _, _ => false

/-- Python truthiness of the allowed_values field (line 46): falsy when
absent or empty. -/
def no_allowed_values (d : AttributeDefinition) : Bool :=
  match d.allowed_values with
  | none => true
  | some vs => vs.isEmpty

/-- AttributeCatalog.add_attribute (lines 36-53): duplicate-name and
invariant checks in source order, the definition stored only after all
of them pass; returned with the catalog state at return/raise time. -/
def AttributeCatalog.add_attribute (c : AttributeCatalog) (d : AttributeDefinition) :
    Except PyErr Unit × AttributeCatalog :=
  if (c.attributes.lookup d.name).isSome then
    (.error (.valueError ("Attribute " ++ d.name ++ " already exists")), c)
  else if (d.attr_type = .INTEGER ∨ d.attr_type = .FLOAT) ∧ bad_min_max d then
    (.error (.valueError "Min value cannot be greater than max value"), c)
  else if d.attr_type = .STRING ∧ no_allowed_values d then
    (.error (.valueError "String attributes must have allowed values"), c)
  else if d.attr_type = .BOOLEAN ∧ (d.min_value.isSome ∨ d.max_value.isSome) then
    (.error (.valueError "Boolean attributes cannot have min/max values"), c)
  else
    (.ok (), ⟨c.attributes ++ [(d.name, d)]⟩)

/-- The numeric range checks of validate_value (lines 64-75). -/
def range_check (d : AttributeDefinition) (n : Int) : Bool :=
  !(match d.min_value with | some lo => decide (n < lo) | none => false) &&
  !(match d.max_value with | some hi => decide (n > hi) | none => false)

/-- AttributeCatalog.validate_value (lines 55-87).  isinstance checks:
Python counts booleans as ints, so INTEGER and FLOAT accept them; with
floats unmodelled the two numeric branches coincide here.  A STRING
attribute without an allowed-value set would make the membership test
raise TypeError; add_attribute makes that unreachable. -/
def AttributeCatalog.validate_value (c : AttributeCatalog) (attr_name : String) (v : Value) :
    Except PyErr Bool :=
  match c.attributes.lookup attr_name with
  | none => .error (.valueError ("Unknown attribute: " ++ attr_name))
  | some d =>
    match d.attr_type with
    | .INTEGER =>
      match v with
      | .vStr _ => .ok false
      | _ =>
        match v.numView with
        | some n => .ok (range_check d n)
        | none => .ok false
    | .FLOAT =>
      match v with
      | .vStr _ => .ok false
      | _ =>
        match v.numView with
        | some n => .ok (range_check d n)
        | none => .ok false
    | .BOOLEAN => .ok (match v with | .vBool _ => true | _ => false)
    | .STRING =>
      match v with
      | .vStr s =>
        match d.allowed_values with
        | none => .error (.typeError "argument of type NoneType is not iterable")
        | some vs => .ok (vs.contains s)
      | _ => .ok false

/-- Rule (lines 167-172); the decision_tree field is always populated by
the engine, so it is not optional here. -/
structure Rule where
  name : String
  rule_str : String
  ast : Ast
  decision_tree : DTree

/-- RuleEngine state (lines 387-390). -/
structure RuleEngine where
  catalog : AttributeCatalog
  rules : List (String × Rule)

mutual

/-- The validate_attributes closure of create_rule (lines 400-408):
every condition's attribute must exist in the catalog. -/
def validate_attributes (c : AttributeCatalog) : Ast → Except PyErr Unit
  | .condition a _ _ _ =>
    if (c.attributes.lookup a).isSome then .ok ()
    else .error (.valueError ("Unknown attribute in rule: " ++ a))
  | .operation _ cs _ => validate_attributes_list c cs

/-- validate_attributes over an operation's children in order. -/
def validate_attributes_list (c : AttributeCatalog) : List Ast → Except PyErr Unit
  | [] => .ok ()
  | x :: xs =>
    match validate_attributes c x with
    | .error e => .error e
    | .ok _ => validate_attributes_list c xs

end

/-- RuleEngine.create_rule (lines 392-416): duplicate-name check,
parse, attribute validation, decision-tree compilation, and only then
the store; every failure leaves the rule map untouched. -/
def RuleEngine.create_rule (e : RuleEngine) (name rule_str : String) :
    Except PyErr Rule × RuleEngine :=
  if (e.rules.lookup name).isSome then
    (.error (.valueError ("Rule " ++ name ++ " already exists")), e)
  else
    match parse_rule rule_str with
    | .error err => (.error err, e)
    | .ok ast =>
      match validate_attributes e.catalog ast with
      | .error err => (.error err, e)
      | .ok _ =>
        match transform_to_decision_tree ast with
        | .error err => (.error err, e)
        | .ok tree =>
          let rule : Rule := ⟨name, rule_str, ast, tree⟩
          (.ok rule, ⟨e.catalog, e.rules ++ [(name, rule)]⟩)

/-- RuleEngine.modify_rule (lines 418-423): existence check, then pop
the old rule and delegate to create_rule — deliberately not atomic, so
a create failure leaves the engine without the old rule.  Python's
dict.pop removes the unique binding; with unique keys the filter below
is the same removal. -/
def RuleEngine.modify_rule (e : RuleEngine) (name new_rule_str : String) :
    Except PyErr Rule × RuleEngine :=
  if (e.rules.lookup name).isSome then
    let removed : RuleEngine := ⟨e.catalog, e.rules.filter (fun p => p.1 ≠ name)⟩
    removed.create_rule name new_rule_str
  else
    (.error (.valueError ("Rule " ++ name ++ " does not exist")), e)

/-- The child-collection loop of combine_rules (lines 436-439): each
named rule must exist; children are the stored rules in call order. -/
def collect_rules (rules : List (String × Rule)) : List String → Except PyErr (List Rule)
  | [] => .ok []
  | n :: ns =>
    match rules.lookup n with
    | none => .error (.valueError ("Rule " ++ n ++ " does not exist"))
    | some r =>
      match collect_rules rules ns with
      | .error e => .error e
      | .ok rs => .ok (r :: rs)

/-- RuleEngine.combine_rules (lines 425-450): operator check (lowered),
duplicate-name check, child collection by reference, decision-tree
compilation over the combined operation node, display-string synthesis,
and only then the store. -/
def RuleEngine.combine_rules (e : RuleEngine) (name : String) (rule_names : List String)
    (operator : String) : Except PyErr Rule × RuleEngine :=
  if ¬ ((pyLower operator).data = "and".data ∨ (pyLower operator).data = "or".data) then
    (.error (.valueError "Operator must be and or or"), e)
  else if (e.rules.lookup name).isSome then
    (.error (.valueError ("Rule " ++ name ++ " already exists")), e)
  else
    match collect_rules e.rules rule_names with
    | .error err => (.error err, e)
    | .ok rs =>
      match transform_to_decision_tree (.operation (pyLower operator) (rs.map Rule.ast) false) with
      | .error err => (.error err, e)
      | .ok tree =>
        let rule_str :=
          String.intercalate (" " ++ operator ++ " ") (rs.map (fun r => "(" ++ r.rule_str ++ ")"))
        let rule : Rule :=
          ⟨name, rule_str, .operation (pyLower operator) (rs.map Rule.ast) false, tree⟩
        (.ok rule, ⟨e.catalog, e.rules ++ [(name, rule)]⟩)

/-- The candidate-validation loop of RuleEngine.evaluate (lines
457-460): keys outside the catalog pass through unvalidated; a value
failing validation raisesValueError.  The message drops the value
Python would interpolate after the attribute name. -/
def validate_candidate (c : AttributeCatalog) : Candidate → Except PyErr Unit
  | [] => .ok ()
  | (k, v) :: rest =>
    if (c.attributes.lookup k).isSome then
      match c.validate_value k v with
      | .error e => .error e
      | .ok true => validate_candidate c rest
      | .ok false => .error (.valueError ("Invalid value for attribute " ++ k))
    else validate_candidate c rest

/-- RuleEngine.evaluate (lines 452-466): unknown-rule check, candidate
validation against the catalog, then the decision-tree walk. -/
def RuleEngine.evaluate (e : RuleEngine) (rule_name : String) (candidate : Candidate) :
    Except PyErr Bool :=
  match e.rules.lookup rule_name with
  | none => .error (.valueError ("Rule " ++ rule_name ++ " does not exist"))
  | some rule =>
    match validate_candidate e.catalog candidate with
    | .error err => .error err
    | .ok _ => rule.decision_tree.run candidate

/-! Concrete fixtures shared by several claims. -/

/-- An Integer attribute named age with no bounds. -/
def ageDef : AttributeDefinition := ⟨"age", .INTEGER, none, none, none⟩

/-- A catalog holding only the age attribute. -/
def catAge : AttributeCatalog := ⟨[("age", ageDef)]⟩

/-- An engine over `catAge` with no rules yet. -/
def engineAge : RuleEngine := ⟨catAge, []⟩

/-- The rule create_rule builds for the text age > 18: note that both
decision-tree leaves are False, because the compiler derives them from
the representative candidates age = 18 and age = 17, neither of which
satisfies the strict comparison. -/
def rule_age_gt : Rule :=
  ⟨"r", "age > 18", .condition "age" ">" (.vInt 18) false,
    .decision "age" ">" (.vInt 18) (.result_node false) (.result_node false)⟩

/-- The engine state after creating rule_age_gt. -/
def engine_age_gt : RuleEngine := ⟨catAge, [("r", rule_age_gt)]⟩

/-- Claim C1: createRule("r", "age > 18") succeeds, but contrary to the
claim the stored decision tree is constant false, so evaluate returns
false on the candidate age = 19 (the claim says true) just as it does
on age = 18. -/
theorem claim_C1_age_gt18_evaluates_false :
    (engineAge.create_rule "r" "age > 18").1 = .ok rule_age_gt ∧
    (engineAge.create_rule "r" "age > 18").2 = engine_age_gt ∧
    engine_age_gt.evaluate "r" [("age", .vInt 19)] = .ok false ∧
    engine_age_gt.evaluate "r" [("age", .vInt 18)] = .ok false :=
  ⟨rfl, rfl, rfl, rfl⟩

/-- The AST of the single-condition rule age > 18. -/
def ast_age_gt : Ast := .condition "age" ">" (.vInt 18) false

/-- Claim C2: a counterexample to decision-tree/AST equivalence on a
rule with one condition per attribute: for age > 18 and the candidate
age = 19 (supplying every referenced attribute), direct AST evaluation
returns true while the compiled decision tree returns false. -/
theorem claim_C2_tree_diverges_from_ast :
    parse_rule "age > 18" = .ok ast_age_gt ∧
    ast_age_gt.eval [("age", .vInt 19)] = .ok true ∧
    transform_to_decision_tree ast_age_gt =
      .ok (.decision "age" ">" (.vInt 18) (.result_node false) (.result_node false)) ∧
    DTree.run (.decision "age" ">" (.vInt 18) (.result_node false) (.result_node false))
      [("age", .vInt 19)] = .ok false :=
  ⟨rfl, rfl, rfl, rfl⟩

/-- An Integer attribute named salary with no bounds. -/
def salaryDef : AttributeDefinition := ⟨"salary", .INTEGER, none, none, none⟩

/-- A catalog holding age and salary. -/
def catAS : AttributeCatalog := ⟨[("age", ageDef), ("salary", salaryDef)]⟩

/-- The stored rule for age >= 18. -/
def rule_r1 : Rule :=
  ⟨"r1", "age >= 18", .condition "age" ">=" (.vInt 18) false,
    .decision "age" ">=" (.vInt 18) (.result_node true) (.result_node false)⟩

/-- The stored rule for salary >= 1000. -/
def rule_r2 : Rule :=
  ⟨"r2", "salary >= 1000", .condition "salary" ">=" (.vInt 1000) false,
    .decision "salary" ">=" (.vInt 1000) (.result_node true) (.result_node false)⟩

/-- The engine state holding r1 and r2. -/
def engine_r1r2 : RuleEngine := ⟨catAS, [("r1", rule_r1), ("r2", rule_r2)]⟩

/-- Claim C3: two perfectly ordinary rules r1 and r2 exist, yet
combineRules("c", [r1, r2], "and") does not succeed: compiling the
combined AST evaluates the whole conjunction against the one-attribute
representative candidate for age, and the salary condition then raises
ValueError (Missing attribute), leaving the engine unchanged. -/
theorem claim_C3_combine_rules_raises :
    ((⟨catAS, []⟩ : RuleEngine).create_rule "r1" "age >= 18").1 = .ok rule_r1 ∧
    (((⟨catAS, []⟩ : RuleEngine).create_rule "r1" "age >= 18").2.create_rule
        "r2" "salary >= 1000") = (.ok rule_r2, engine_r1r2) ∧
    (engine_r1r2.combine_rules "c" ["r1", "r2"] "and").1 =
      .error (.valueError "Missing attribute: salary") ∧
    (engine_r1r2.combine_rules "c" ["r1", "r2"] "and").2 = engine_r1r2 :=
  ⟨rfl, rfl, rfl, rfl⟩

/-- Claim C4: the text a AND b OR c does not parse at all — a is taken
as an attribute and AND rejected as its comparison operator; even with
full conditions in place of the bare identifiers, the parser returns
the first condition immediately (parse_expression lines 317-323 return
when no current operation exists) and parse_rule rejects the leftover
tokens.  The connective-change wrapping the claim describes (lines
302-306) is only reachable when a logical keyword arrives while an
operation node already exists, e.g. with a leading keyword. -/
theorem claim_C4_and_or_text_fails_to_parse :
    parse_rule "a AND b OR c" =
      .error (.parseError "Invalid comparison operator" 1 "AND") ∧
    parse_rule "a = 1 AND b = 2 OR c = 3" =
      .error (.parseError "Unexpected tokens after valid expression" 3 "AND") ∧
    parse_rule "AND a = 1 OR b = 2" =
      .ok (.operation "or"
        [.operation "and" [.condition "a" "=" (.vInt 1) false] false,
         .condition "b" "=" (.vInt 2) false] false) :=
  ⟨rfl, rfl, rfl⟩

/-- The stored rule for NOT age > 18 (inverted condition; the compiler
drops the inversion when collecting triples, and both representative
evaluations come out true, so the tree is constant true). -/
def rule_not_age : Rule :=
  ⟨"r", "NOT age > 18", .condition "age" ">" (.vInt 18) true,
    .decision "age" ">" (.vInt 18) (.result_node true) (.result_node true)⟩

/-- The engine state after creating rule_not_age. -/
def engine_not_age : RuleEngine := ⟨catAge, [("r", rule_not_age)]⟩

/-- Claim C5: NOT (age > 18) does not parse — the NOT branch of
parse_expression delegates to parse_condition, which takes the opening
parenthesis as the attribute and rejects age as a comparison operator.
The parenthesis-free text NOT age > 18 does parse and evaluates to true
at age = 10. -/
theorem claim_C5_not_paren_fails_to_parse :
    parse_rule "NOT (age > 18)" =
      .error (.parseError "Invalid comparison operator" 2 "age") ∧
    (engineAge.create_rule "r" "NOT age > 18") = (.ok rule_not_age, engine_not_age) ∧
    engine_not_age.evaluate "r" [("age", .vInt 10)] = .ok true :=
  ⟨rfl, rfl, rfl⟩

/-- add_attribute either returns the catalog unchanged or succeeds. -/
theorem add_attribute_preserves_or_ok (c : AttributeCatalog) (d : AttributeDefinition) :
    (c.add_attribute d).2 = c ∨ (c.add_attribute d).1 = .ok () := by
  unfold AttributeCatalog.add_attribute
  repeat' split
  all_goals simp

/-- create_rule either returns the engine unchanged or succeeds. -/
theorem create_rule_preserves_or_ok (e : RuleEngine) (n s : String) :
    (e.create_rule n s).2 = e ∨ ∃ r, (e.create_rule n s).1 = .ok r := by
  unfold RuleEngine.create_rule
  repeat' split
  all_goals simp

/-- combine_rules either returns the engine unchanged or succeeds. -/
theorem combine_rules_preserves_or_ok (e : RuleEngine) (n : String) (ns : List String)
    (o : String) :
    (e.combine_rules n ns o).2 = e ∨ ∃ r, (e.combine_rules n ns o).1 = .ok r := by
  unfold RuleEngine.combine_rules
  repeat' split
  all_goals simp

/-- Looking up a key in an association list filtered on that very key
finds nothing. -/
theorem lookup_filter_self (l : List (String × Rule)) (n : String) :
    (l.filter (fun p => p.1 ≠ n)).lookup n = none := by
  induction l with
  | nil => rfl
  | cons hd tl ih =>
    obtain ⟨k, v⟩ := hd
    rw [List.filter_cons]
    by_cases h : k = n
    · have hfalse : decide ((k, v).1 ≠ n) = false := by simp [h]
      rw [hfalse]
      simpa using ih
    · have htrue : decide ((k, v).1 ≠ n) = true := by simp [h]
      rw [htrue]
      have hb : (n == k) = false := beq_eq_false_iff_ne.mpr (fun hh => h hh.symm)
      simp only [if_true, List.lookup, hb]
      exact ih

/-- Claim C6: every failing mutation (add_attribute, create_rule,
combine_rules) leaves the catalog or engine exactly as it was, while a
failing modify_rule on an existing name has already removed the old
rule, so afterwards no rule with that name exists. -/
theorem claim_C6_failed_mutations_preserve_state :
    (∀ (c : AttributeCatalog) (d : AttributeDefinition) (err : PyErr),
        (c.add_attribute d).1 = .error err → (c.add_attribute d).2 = c) ∧
    (∀ (e : RuleEngine) (n s : String) (err : PyErr),
        (e.create_rule n s).1 = .error err → (e.create_rule n s).2 = e) ∧
    (∀ (e : RuleEngine) (n : String) (ns : List String) (o : String) (err : PyErr),
        (e.combine_rules n ns o).1 = .error err → (e.combine_rules n ns o).2 = e) ∧
    (∀ (e : RuleEngine) (n s : String) (r : Rule) (err : PyErr),
        e.rules.lookup n = some r → (e.modify_rule n s).1 = .error err →
        ((e.modify_rule n s).2).rules.lookup n = none) := by
  refine ⟨?_, ?_, ?_, ?_⟩
  · intro c d err h
    rcases add_attribute_preserves_or_ok c d with h2 | h1
    · exact h2
    · rw [h1] at h; exact Except.noConfusion h
  · intro e n s err h
    rcases create_rule_preserves_or_ok e n s with h2 | ⟨r, h1⟩
    · exact h2
    · rw [h1] at h; exact Except.noConfusion h
  · intro e n ns o err h
    rcases combine_rules_preserves_or_ok e n ns o with h2 | ⟨r, h1⟩
    · exact h2
    · rw [h1] at h; exact Except.noConfusion h
  · intro e n s r err hlook herr
    unfold RuleEngine.modify_rule at herr ⊢
    rw [hlook] at herr ⊢
    simp only [Option.isSome_some, if_true] at herr ⊢
    rcases create_rule_preserves_or_ok ⟨e.catalog, e.rules.filter (fun p => p.1 ≠ n)⟩ n s with
      h2 | ⟨r2, h1⟩
    · rw [h2]; exact lookup_filter_self e.rules n
    · rw [h1] at herr; exact Except.noConfusion herr

/-- Witness for claim C6 at concrete failing mutations: a duplicate
attribute add, a duplicate rule create, a combine with a bad operator,
and a modify of the existing rule r with unparseable text. -/
theorem claim_C6_failed_mutations_witness :
    ((catAge.add_attribute ageDef).2 = catAge) ∧
    ((engine_age_gt.create_rule "r" "age > 18").2 = engine_age_gt) ∧
    ((engine_age_gt.combine_rules "c" ["r1"] "xor").2 = engine_age_gt) ∧
    (((engine_age_gt.modify_rule "r" "((").2).rules.lookup "r" = none) :=
  ⟨claim_C6_failed_mutations_preserve_state.1 catAge ageDef
      (.valueError "Attribute age already exists") rfl,
   claim_C6_failed_mutations_preserve_state.2.1 engine_age_gt "r" "age > 18"
      (.valueError "Rule r already exists") rfl,
   claim_C6_failed_mutations_preserve_state.2.2.1 engine_age_gt "c" ["r1"] "xor"
      (.valueError "Operator must be and or or") rfl,
   claim_C6_failed_mutations_preserve_state.2.2.2 engine_age_gt "r" "((" rule_age_gt
      (.parseError "Unmatched opening parenthesis" 1 "") rfl rfl⟩

/-- Claim C7: tokenizing blank input fails with a ParseError at
position 0; a stray closing parenthesis (a > 1, then a parenthesis)
fails at that token's 0-based position 3; an unmatched opening
parenthesis fails at end of input with the last token's position 3. -/
theorem claim_C7_tokenizer_error_positions :
    (∀ s : String, pyBlank s = true →
        tokenize_rule s = .error (.parseError "Empty rule string" 0 "")) ∧
    tokenize_rule "a > 1)" = .error (.parseError "Unmatched closing parenthesis" 3 ")") ∧
    tokenize_rule "(a > 1" = .error (.parseError "Unmatched opening parenthesis" 3 "") := by
  refine ⟨?_, rfl, rfl⟩
  intro s h
  simp [tokenize_rule, h]

/-- Witness for claim C7 on the concrete whitespace-only input. -/
theorem claim_C7_tokenizer_witness :
    tokenize_rule "   " = .error (.parseError "Empty rule string" 0 "") :=
  claim_C7_tokenizer_error_positions.1 "   " rfl

/-- A String attribute country whose allowed values are exactly US. -/
def countryDef : AttributeDefinition := ⟨"country", .STRING, none, none, some ["US"]⟩

/-- A catalog holding only the country attribute. -/
def catCountry : AttributeCatalog := ⟨[("country", countryDef)]⟩

/-- The stored rule for country = 'us' (the literal is unquoted and
kept as a string; both representative evaluations are true, so the
tree is constant true — which still returns true on the claim's
candidate). -/
def rule_country : Rule :=
  ⟨"r", "country = \x27us\x27", .condition "country" "=" (.vStr "us") false,
    .decision "country" "=" (.vStr "us") (.result_node true) (.result_node true)⟩

/-- The engine state after creating rule_country. -/
def engine_country : RuleEngine := ⟨catCountry, [("r", rule_country)]⟩

/-- Claim C8: createRule("r", "country = 'us'") succeeds against a
catalog allowing US, evaluating the candidate country = US returns
true, and in general the = comparison with a string literal lower-cases
both sides (pyEqOp is the comparison used by both condition.eval and
the decision-tree walk). -/
theorem claim_C8_case_insensitive_string_equality :
    ((⟨catCountry, []⟩ : RuleEngine).create_rule "r" "country = \x27us\x27") =
      (.ok rule_country, engine_country) ∧
    engine_country.evaluate "r" [("country", .vStr "US")] = .ok true ∧
    (∀ s t : String, pyEqOp (.vStr s) (.vStr t) =
        .ok ((pyLower s).data == (pyLower t).data)) ∧
    (∀ s t : String, compareKnown "=" (.vStr s) (.vStr t) =
        some (.ok ((pyLower s).data == (pyLower t).data))) :=
  ⟨rfl, rfl, fun _ _ => rfl, fun _ _ => rfl⟩

/-- The stored rule for the bare text AND: an operation with no
children, compiled to a constant-true leaf. -/
def ruleAnd : Rule := ⟨"r", "AND", .operation "and" [] false, .result_node true⟩

/-- An engine over the empty catalog holding only ruleAnd. -/
def engineAnd : RuleEngine := ⟨⟨[]⟩, [("r", ruleAnd)]⟩

/-- Against an empty catalog every candidate passes validation. -/
theorem validate_candidate_empty_catalog (cand : Candidate) :
    validate_candidate ⟨[]⟩ cand = .ok () := by
  induction cand with
  | nil => rfl
  | cons hd tl ih =>
    obtain ⟨k, v⟩ := hd
    simp [validate_candidate, List.lookup, ih]

/-- Claim C9: the bare keyword AND parses to an operation with no
children, such an operation evaluates to true on every candidate,
createRule accepts it (against any catalog), and the stored rule
evaluates to true for every candidate, including the empty one. -/
theorem claim_C9_bare_and_rule_is_true :
    parse_rule "AND" = .ok (.operation "and" [] false) ∧
    (∀ cand, Ast.eval (.operation "and" [] false) cand = .ok true) ∧
    (∀ cat : AttributeCatalog, ((⟨cat, []⟩ : RuleEngine).create_rule "r" "AND").1 = .ok ruleAnd) ∧
    ((⟨⟨[]⟩, []⟩ : RuleEngine).create_rule "r" "AND") = (.ok ruleAnd, engineAnd) ∧
    (∀ cand, engineAnd.evaluate "r" cand = .ok true) ∧
    engineAnd.evaluate "r" [] = .ok true := by
  refine ⟨rfl, fun _ => rfl, fun _ => rfl, rfl, ?_, rfl⟩
  intro cand
  have h1 : engineAnd.rules.lookup "r" = some ruleAnd := rfl
  simp [RuleEngine.evaluate, h1, engineAnd, validate_candidate_empty_catalog, DTree.run, ruleAnd]

/-- The stored rule for age = abc: the literal parses as neither
boolean nor number and stays the string abc. -/
def rule_age_abc : Rule :=
  ⟨"r", "age = abc", .condition "age" "=" (.vStr "abc") false,
    .decision "age" "=" (.vStr "abc") (.result_node true) (.result_node true)⟩

/-- The engine state after creating rule_age_abc. -/
def engine_age_abc : RuleEngine := ⟨catAge, [("r", rule_age_abc)]⟩

/-- Claim C10: createRule("r", "age = abc") succeeds against the age
catalog, and evaluating the type-valid candidate age = 30 raises
AttributeError (int has no attribute lower) from lower-casing a
non-string candidate value — not a ParseError, ValueError or any
engine-taxonomy error. -/
theorem claim_C10_evaluate_raises_attribute_error :
    (engineAge.create_rule "r" "age = abc") = (.ok rule_age_abc, engine_age_abc) ∧
    engine_age_abc.evaluate "r" [("age", .vInt 30)] =
      .error (.attributeError "int object has no attribute lower") :=
  ⟨rfl, rfl⟩

end RuleSystem
